import Mathlib

/-!
# Verification of the QuantQuest trading platform core

Shallow embedding of the execution/position engine, the risk tracker's
drawdown scan, the adaptive strategy selector, and the signal-generation
strategies of the QuantQuest-Challenge repository, together with proofs
settling the frozen specification claims.

Modelling conventions:
* Python `float` values are embedded as `ℚ` (exact rational arithmetic);
  where IEEE special values (`inf`, `NaN`) are observable in the source,
  they are modelled explicitly (`Option ℚ` with `none` for `NaN`).
* Python `datetime` timestamps are embedded as `Nat` (only ordering and
  identity of timestamps ever matter to the verified code).
* The Python `dict` position book is embedded as an association list with
  first-match lookup, in-place replacement and deletion, matching `dict`
  semantics for the unique-key books the engine maintains.
* Fallible Python code (out-of-bounds `iloc` indexing, `None` comparisons)
  is embedded in `Except String`.
-/

namespace QuantQuest

/-- Source `engine/order.py`: `OrderSide`. -/
inductive OrderSide where
  | BUY
  | SELL
deriving DecidableEq

/-- Source `engine/order.py`: `OrderType`. -/
inductive OrderType where
  | MARKET
  | LIMIT
deriving DecidableEq

/-- Source `engine/order.py`: `OrderStatus`. -/
inductive OrderStatus where
  | PENDING
  | FILLED
  | CANCELLED
  | REJECTED
deriving DecidableEq

/-- Source `engine/order.py`: the `Order` dataclass.  The derived `order_id`
string (strftime of the timestamp) is not modelled; no verified property
mentions it. -/
structure Order where
  symbol : String
  side : OrderSide
  quantity : Int
  orderType : OrderType := OrderType.MARKET
  timestamp : Nat := 0
  limitPrice : Option ℚ := none
  status : OrderStatus := OrderStatus.PENDING
  fillPrice : Option ℚ := none
  fillTimestamp : Option Nat := none
deriving DecidableEq

/-- Method `Order.fill`: mark the order filled at the given price and time. -/
def Order.fill (o : Order) (price : ℚ) (ts : Nat) : Order :=
  { o with fillPrice := some price, fillTimestamp := some ts,
           status := OrderStatus.FILLED }

/-- Method `Order.reject`: mark the order rejected. -/
def Order.reject (o : Order) : Order :=
  { o with status := OrderStatus.REJECTED }

/-- Source `engine/position.py`: the `ClosedPosition` dataclass. -/
structure ClosedPosition where
  symbol : String
  quantity : Int
  entryPrice : ℚ
  exitPrice : ℚ
  entryTimestamp : Nat
  exitTimestamp : Nat
  realizedPnl : ℚ
  realizedPnlPct : ℚ
  leverage : ℚ := 1
deriving DecidableEq

/-- Source `engine/position.py`: the `Position` dataclass.
Quantity is signed: positive = long, negative = short. -/
structure Position where
  symbol : String
  quantity : Int
  entryPrice : ℚ
  entryTimestamp : Nat
  leverage : ℚ := 1
deriving DecidableEq

/-- Method `Position.calculate_unrealized_pnl`: `(current_price - entry_price) * quantity`. -/
def Position.calculateUnrealizedPnl (p : Position) (currentPrice : ℚ) : ℚ :=
  (currentPrice - p.entryPrice) * (p.quantity : ℚ)

/-- Method `Position.calculate_unrealized_pnl_percentage`. -/
def Position.calculateUnrealizedPnlPercentage (p : Position) (currentPrice : ℚ) : ℚ :=
  if p.entryPrice = 0 then 0
  else
    let pnlPct := (currentPrice - p.entryPrice) / p.entryPrice * 100
    let pnlPct := if p.quantity < 0 then -pnlPct else pnlPct
    pnlPct * p.leverage

/-- Method `Position.get_position_value`: `abs(quantity) * current_price`. -/
def Position.getPositionValue (p : Position) (currentPrice : ℚ) : ℚ :=
  |(p.quantity : ℚ)| * currentPrice

/-- Method `Position.get_margin_required`: `position_value / leverage`. -/
def Position.getMarginRequired (p : Position) (currentPrice : ℚ) : ℚ :=
  p.getPositionValue currentPrice / p.leverage

/-- Method `Position.close`: snapshot the position into a `ClosedPosition`. -/
def Position.close (p : Position) (exitPrice : ℚ) (exitTimestamp : Nat) : ClosedPosition :=
  { symbol := p.symbol
    quantity := p.quantity
    entryPrice := p.entryPrice
    exitPrice := exitPrice
    entryTimestamp := p.entryTimestamp
    exitTimestamp := exitTimestamp
    realizedPnl := p.calculateUnrealizedPnl exitPrice
    realizedPnlPct := p.calculateUnrealizedPnlPercentage exitPrice
    leverage := p.leverage }

/-- The position book `self.positions : Dict[str, Position]`, embedded as an
association list with `dict` semantics (unique keys maintained by the engine). -/
abbrev PositionBook := List (String × Position)

/-- Python `dict.get`: first-match lookup. -/
def posGet : PositionBook → String → Option Position
  | [], _ => none
  | (s, p) :: rest, sym => if s = sym then some p else posGet rest sym

/-- Python `dict[sym] = p`: replace the value at an existing key in place,
append a new binding otherwise. -/
def posSet : PositionBook → String → Position → PositionBook
  | [], sym, p => [(sym, p)]
  | (s, q) :: rest, sym, p =>
      if s = sym then (s, p) :: rest else (s, q) :: posSet rest sym p

/-- Python `del dict[sym]`: remove the first binding of the key. -/
def posDel : PositionBook → String → PositionBook
  | [], _ => []
  | (s, q) :: rest, sym => if s = sym then rest else (s, q) :: posDel rest sym

/-- The current-prices argument `current_prices : Dict[str, float]`.
`dict.get(symbol, fallback)` is `(prices symbol).getD fallback`. -/
abbrev PriceMap := String → Option ℚ

/-- Source `engine/execution_engine.py`: the `ExecutionEngine` state.  The
`pending_orders` and `all_orders` bookkeeping lists (which alias the
mutable `Order` objects) are not modelled; no verified property mentions
them. -/
structure ExecutionEngine where
  initialCapital : ℚ
  cash : ℚ
  maxLeverage : ℚ
  slippagePct : ℚ
  commissionPct : ℚ
  positions : PositionBook := []
  closedPositions : List ClosedPosition := []
  filledOrders : List Order := []
deriving DecidableEq

/-- Method `ExecutionEngine.__init__`. -/
def ExecutionEngine.mk0 (initialCapital maxLeverage slippagePct commissionPct : ℚ) :
    ExecutionEngine :=
  { initialCapital := initialCapital
    cash := initialCapital
    maxLeverage := maxLeverage
    slippagePct := slippagePct
    commissionPct := commissionPct
    positions := []
    closedPositions := []
    filledOrders := [] }

/-- Method `ExecutionEngine.get_current_position`. -/
def ExecutionEngine.getCurrentPosition (e : ExecutionEngine) (symbol : String) :
    Option Position :=
  posGet e.positions symbol

/-- Method `ExecutionEngine.get_position_quantity`. -/
def ExecutionEngine.getPositionQuantity (e : ExecutionEngine) (symbol : String) : Int :=
  match posGet e.positions symbol with
  | some p => p.quantity
  | none => 0

/-- Method `ExecutionEngine.calculate_available_capital`:
`max(cash * max_leverage - margin_used, 0)` with each open position priced
at `current_prices.get(symbol, entry_price)`. -/
def ExecutionEngine.calculateAvailableCapital (e : ExecutionEngine) (prices : PriceMap) : ℚ :=
  let marginUsed := e.positions.foldl
    (fun acc sp => acc + sp.2.getMarginRequired ((prices sp.1).getD sp.2.entryPrice)) 0
  max (e.cash * e.maxLeverage - marginUsed) 0

/-- Method `ExecutionEngine.apply_slippage`. -/
def ExecutionEngine.applySlippage (e : ExecutionEngine) (price : ℚ) (side : OrderSide) : ℚ :=
  if side = OrderSide.BUY then price * (1 + e.slippagePct)
  else price * (1 - e.slippagePct)

/-- Method `ExecutionEngine.calculate_commission`: `abs(quantity) * price * commission_pct`. -/
def ExecutionEngine.calculateCommission (e : ExecutionEngine) (quantity : Int) (price : ℚ) : ℚ :=
  |(quantity : ℚ)| * price * e.commissionPct

/-- Method `ExecutionEngine._update_position_from_order`.  The source reads
`order.fill_price` / `order.fill_timestamp`, which are always set by the
caller before this method runs; the model reads them with default `0`
(the defaults are unreachable from `executeMarketOrder`). -/
def ExecutionEngine.updatePositionFromOrder (e : ExecutionEngine) (order : Order)
    (commission : ℚ) : ExecutionEngine :=
  let symbol := order.symbol
  let quantity : Int := if order.side = OrderSide.BUY then order.quantity else -order.quantity
  let fillPrice : ℚ := order.fillPrice.getD 0
  let fillTs : Nat := order.fillTimestamp.getD 0
  match posGet e.positions symbol with
  | none =>
      -- New position
      let pos : Position :=
        { symbol := symbol, quantity := quantity, entryPrice := fillPrice,
          entryTimestamp := fillTs, leverage := e.maxLeverage }
      let cost := |(quantity : ℚ)| * fillPrice + commission
      let cash :=
        if order.side = OrderSide.BUY then e.cash - cost / e.maxLeverage
        else e.cash + (|(quantity : ℚ)| * fillPrice - commission) / e.maxLeverage
      { e with positions := posSet e.positions symbol pos, cash := cash }
  | some currentPos =>
      let newQuantity := currentPos.quantity + quantity
      if (currentPos.quantity > 0 ∧ quantity < 0) ∨ (currentPos.quantity < 0 ∧ quantity > 0) then
        -- Closing or reversing position
        if quantity.natAbs ≥ currentPos.quantity.natAbs then
          -- Fully closing or reversing
          let closed := currentPos.close fillPrice fillTs
          let e1 :=
            { e with closedPositions := e.closedPositions ++ [closed]
                     cash := e.cash + closed.realizedPnl - commission
                     positions := posDel e.positions symbol }
          if quantity.natAbs > currentPos.quantity.natAbs then
            -- Reversing: open a new position in the opposite direction
            let remainingQty := newQuantity
            let newPos : Position :=
              { symbol := symbol, quantity := remainingQty, entryPrice := fillPrice,
                entryTimestamp := fillTs, leverage := e.maxLeverage }
            { e1 with positions := posSet e1.positions symbol newPos
                      cash := e1.cash - (|(remainingQty : ℚ)| * fillPrice) / e.maxLeverage }
          else e1
        else
          -- Partially closing: realize P&L on the closed portion only
          let partialPnl := (fillPrice - currentPos.entryPrice) * |(quantity : ℚ)|
          let partialPnl := if currentPos.quantity < 0 then -partialPnl else partialPnl
          { e with cash := e.cash + partialPnl - commission
                   positions := posSet e.positions symbol
                     { currentPos with quantity := newQuantity } }
      else
        -- Adding to position: re-average the entry price
        let oldCost := |(currentPos.quantity : ℚ)| * currentPos.entryPrice
        let newCost := |(quantity : ℚ)| * fillPrice
        let totalQuantity := |(currentPos.quantity : ℚ)| + |(quantity : ℚ)|
        { e with positions := posSet e.positions symbol
                   { currentPos with entryPrice := (oldCost + newCost) / totalQuantity,
                                     quantity := newQuantity }
                 cash := e.cash - (|(quantity : ℚ)| * fillPrice + commission) / e.maxLeverage }

/-- Method `ExecutionEngine.execute_market_order`.  Returns the `(success, engine,
order)` triple: the bool result, the mutated engine state and the mutated
order.  The source checks margin sufficiency only inside the
`order.side == OrderSide.BUY` branch; the single guard below is that
nested conditional flattened. -/
def ExecutionEngine.executeMarketOrder (e : ExecutionEngine) (order : Order)
    (currentPrice : ℚ) (prices : PriceMap) (ts : Nat) :
    Bool × ExecutionEngine × Order :=
  let executionPrice := e.applySlippage currentPrice order.side
  let tradeValue := |(order.quantity : ℚ)| * executionPrice
  let commission := e.calculateCommission order.quantity executionPrice
  let totalCost := tradeValue + commission
  if order.side = OrderSide.BUY ∧
      totalCost / e.maxLeverage > e.calculateAvailableCapital prices then
    (false, e, order.reject)
  else
    let filled := order.fill executionPrice ts
    let e1 := { e with filledOrders := e.filledOrders ++ [filled] }
    (true, e1.updatePositionFromOrder filled commission, filled)

/-- Method `ExecutionEngine.get_total_portfolio_value`: cash plus the unrealized
P&L of every open position, each priced with entry-price fallback. -/
def ExecutionEngine.getTotalPortfolioValue (e : ExecutionEngine) (prices : PriceMap) : ℚ :=
  let totalUnrealized := e.positions.foldl
    (fun acc sp => acc + sp.2.calculateUnrealizedPnl ((prices sp.1).getD sp.2.entryPrice)) 0
  e.cash + totalUnrealized

/-- Method `ExecutionEngine.get_total_realized_pnl`. -/
def ExecutionEngine.getTotalRealizedPnl (e : ExecutionEngine) : ℚ :=
  (e.closedPositions.map ClosedPosition.realizedPnl).sum

/-- Method `ExecutionEngine.get_total_unrealized_pnl`. -/
def ExecutionEngine.getTotalUnrealizedPnl (e : ExecutionEngine) (prices : PriceMap) : ℚ :=
  e.positions.foldl
    (fun acc sp => acc + sp.2.calculateUnrealizedPnl ((prices sp.1).getD sp.2.entryPrice)) 0

/-- Engine states reachable from a freshly constructed engine by any
sequence of `execute_market_order` calls. -/
inductive Reachable : ExecutionEngine → Prop
  | init (cap lev slip comm : ℚ) : Reachable (ExecutionEngine.mk0 cap lev slip comm)
  | step (e : ExecutionEngine) (o : Order) (cp : ℚ) (prices : PriceMap) (ts : Nat) :
      Reachable e → Reachable (e.executeMarketOrder o cp prices ts).2.1

/-- Claim-side formulation of "the sum of unrealized P&L over all open
positions", each position priced at the supplied mapping with
entry-price fallback.  Stated independently of the engine's fold so that
the conservation claim compares two formulations. -/
def sumUnrealizedPnl (book : PositionBook) (prices : PriceMap) : ℚ :=
  (book.map (fun sp => sp.2.calculateUnrealizedPnl ((prices sp.1).getD sp.2.entryPrice))).sum

/-- The boolean branch discriminator of `_update_position_from_order`:
the incoming fill is on the opposite side of an existing position and at
least as large, so the whole existing position is closed out (emitting a
`ClosedPosition`). -/
def closesEntirePosition (e : ExecutionEngine) (order : Order) : Bool :=
  let quantity : Int := if order.side = OrderSide.BUY then order.quantity else -order.quantity
  match posGet e.positions order.symbol with
  | none => false
  | some p =>
      decide ((p.quantity > 0 ∧ quantity < 0) ∨ (p.quantity < 0 ∧ quantity > 0)) &&
      decide (quantity.natAbs ≥ p.quantity.natAbs)

/-- Claim C1 scenario: engine with capital 10,000, leverage 1, zero
slippage and commission. -/
def c1E0 : ExecutionEngine := ExecutionEngine.mk0 10000 1 0 0

def c1Buy : Order := { symbol := "SYM", side := OrderSide.BUY, quantity := 10 }

def c1Sell : Order := { symbol := "SYM", side := OrderSide.SELL, quantity := 10 }

def c1Prices110 : PriceMap := fun s => if s = "SYM" then some 110 else none

def c1Step1 : Bool × ExecutionEngine × Order :=
  c1E0.executeMarketOrder c1Buy 100 (fun _ => none) 0

def c1Step2 : Bool × ExecutionEngine × Order :=
  c1Step1.2.1.executeMarketOrder c1Sell 110 c1Prices110 1

def c2E : ExecutionEngine := ExecutionEngine.mk0 100 1 0 0

def c2Sell : Order := { symbol := "S", side := OrderSide.SELL, quantity := 10 }

def c2Res : Bool × ExecutionEngine × Order :=
  c2E.executeMarketOrder c2Sell 100 (fun _ => none) 0

def c4E : ExecutionEngine :=
  { initialCapital := 10000, cash := 9000, maxLeverage := 1, slippagePct := 0,
    commissionPct := 0,
    positions := [("S", { symbol := "S", quantity := 10, entryPrice := 100,
                          entryTimestamp := 0, leverage := 1 })],
    closedPositions := [], filledOrders := [] }

def c4Res : Bool × ExecutionEngine × Order :=
  c4E.executeMarketOrder { symbol := "S", side := OrderSide.SELL, quantity := 5 }
    110 (fun _ => none) 1

def c5E : ExecutionEngine :=
  { initialCapital := 10000, cash := 9000, maxLeverage := 1, slippagePct := 0,
    commissionPct := 0,
    positions := [("S", { symbol := "S", quantity := 10, entryPrice := 100,
                          entryTimestamp := 0, leverage := 1 })],
    closedPositions := [], filledOrders := [] }

def c5Pos : Position :=
  { symbol := "S", quantity := 10, entryPrice := 100, entryTimestamp := 0, leverage := 1 }

def c5Sell : Order :=
  { symbol := "S", side := OrderSide.SELL, quantity := 15,
    status := OrderStatus.FILLED, fillPrice := some 110, fillTimestamp := some 1 }

/-- The scan state of `RiskTracker.get_max_drawdown`: the largest
drawdown seen so far (dollars and percent) and the running peak. -/
structure DrawdownState where
  maxDdDollars : ℚ
  maxDdPct : ℚ
  peak : ℚ
deriving DecidableEq

/-- Source `if equity > peak: peak = equity` — the running-peak update. -/
def runningPeak (st : DrawdownState) (equity : ℚ) : ℚ :=
  if equity > st.peak then equity else st.peak

/-- One iteration of the `for timestamp, equity in self.equity_history`
loop of `RiskTracker.get_max_drawdown`. -/
def drawdownStep (st : DrawdownState) (equity : ℚ) : DrawdownState :=
  let peak := runningPeak st equity
  let drawdown := peak - equity
  let drawdownPct := if peak > 0 then drawdown / peak * 100 else 0
  if drawdown > st.maxDdDollars then
    { maxDdDollars := drawdown, maxDdPct := drawdownPct, peak := peak }
  else
    { st with peak := peak }

/-- Source `portfolio/risk_tracker.py`: `RiskTracker.get_max_drawdown`, a single
left-to-right scan of the equity history starting from
`peak = engine.initial_capital`, returning `(max_dd_dollars, max_dd_pct)`;
an empty history short-circuits to `(0, 0)`. -/
def getMaxDrawdown (initialCapital : ℚ) (equityHistory : List (Nat × ℚ)) : ℚ × ℚ :=
  if equityHistory.isEmpty then (0, 0)
  else
    let st := equityHistory.foldl (fun st te => drawdownStep st te.2)
      { maxDdDollars := 0, maxDdPct := 0, peak := initialCapital }
    (st.maxDdDollars, st.maxDdPct)

/-- Source `strategies/base_strategy.py`: the `Signal` enum. -/
inductive Signal where
  | BUY
  | SELL
  | HOLD
  | CLOSE
deriving DecidableEq

/-- Source `strategies/base_strategy.py`: the `TradeSignal` dataclass.  The
numeric interpolations inside the human-readable `reason` strings are
elided; reasons keep their static text. -/
structure TradeSignal where
  signal : Signal
  symbol : String
  price : ℚ
  timestamp : Nat
  strength : ℚ := 1
  reason : String := ""
deriving DecidableEq

/-- One OHLCV bar (a row of the pandas DataFrame fed to strategies).
`open` is a Lean keyword, hence `openPrice`. -/
structure Bar where
  timestamp : Nat
  openPrice : ℚ
  high : ℚ
  low : ℚ
  close : ℚ
  volume : ℚ
deriving DecidableEq

/-- Pandas `series.iloc[-1]`: the last element, or an `IndexError` on an empty
frame (pandas raises "single positional indexer is out-of-bounds"). -/
def ilocLast {α : Type} (l : List α) : Except String α :=
  match l.getLast? with
  | some x => Except.ok x
  | none => Except.error "single positional indexer is out-of-bounds"

/-- Source `strategies/rsi_strategy.py`: `RSIStrategy.__init__` parameters. -/
structure RSIStrategy where
  period : Nat := 14
  oversold : ℚ := 30
  overbought : ℚ := 70
  neutral : ℚ := 50
deriving DecidableEq

/-- Pandas `series.diff()` without the leading NaN: consecutive differences. -/
def diffs : List ℚ → List ℚ
  | [] => []
  | [_] => []
  | a :: b :: rest => (b - a) :: diffs (b :: rest)

/-- The last `n` elements of a list (the tail window of a rolling mean). -/
def lastN {α : Type} (n : Nat) (l : List α) : List α :=
  l.drop (l.length - n)

/-- The final value of `RSIStrategy.calculate_rsi` evaluated at the last
index, for histories long enough that the rolling windows are full
(`len ≥ period + 1`, the caller's guard).  Gains are `max(delta, 0)`,
losses `max(-delta, 0)`, averaged over the last `period` deltas.  IEEE
float semantics of `rs = avg_gains / avg_losses` are modelled explicitly:
`0/0` is NaN (`none`, pandas propagates it to the RSI), and `x/0` with
`x > 0` is `+inf`, for which `100 - 100/(1 + inf) = 100`. -/
def rsiLast (closes : List ℚ) (period : Nat) : Option ℚ :=
  let deltas := diffs closes
  let gains := deltas.map (fun d => max d 0)
  let losses := deltas.map (fun d => max (-d) 0)
  let avgGains := (lastN period gains).sum / (period : ℚ)
  let avgLosses := (lastN period losses).sum / (period : ℚ)
  if avgLosses = 0 then
    if avgGains = 0 then none else some 100
  else
    some (100 - 100 / (1 + avgGains / avgLosses))

/-- Method `RSIStrategy.generate_signal`. -/
def RSIStrategy.generateSignal (self : RSIStrategy) (data : List Bar) (symbol : String)
    (currentPosition : Option Int) : Except String TradeSignal :=
  match data.getLast? with
  | none => Except.error "single positional indexer is out-of-bounds"
  | some last =>
    let currentPrice := last.close
    let currentTime := last.timestamp
    if data.length < self.period + 1 then
      Except.ok { signal := Signal.HOLD, symbol := symbol, price := currentPrice,
                  timestamp := currentTime,
                  reason := "Insufficient data for RSI calculation" }
    else
      match rsiLast (data.map Bar.close) self.period with
      | none =>
          Except.ok { signal := Signal.HOLD, symbol := symbol, price := currentPrice,
                      timestamp := currentTime, reason := "RSI calculation returned NaN" }
      | some currentRsi =>
          let entry : TradeSignal :=
            if currentRsi < self.oversold then
              { signal := Signal.BUY, symbol := symbol, price := currentPrice,
                timestamp := currentTime,
                strength := (self.oversold - currentRsi) / self.oversold,
                reason := "RSI oversold" }
            else if currentRsi > self.overbought then
              { signal := Signal.SELL, symbol := symbol, price := currentPrice,
                timestamp := currentTime,
                strength := (currentRsi - self.overbought) / (100 - self.overbought),
                reason := "RSI overbought" }
            else
              { signal := Signal.HOLD, symbol := symbol, price := currentPrice,
                timestamp := currentTime, reason := "RSI neutral" }
          let holdNeutral : TradeSignal :=
            { signal := Signal.HOLD, symbol := symbol, price := currentPrice,
              timestamp := currentTime, reason := "RSI neutral" }
          Except.ok (match currentPosition with
            | none => entry
            | some q =>
                if q = 0 then entry
                else if q > 0 then
                  if currentRsi > self.neutral ∨ currentRsi > self.overbought then
                    { signal := Signal.CLOSE, symbol := symbol, price := currentPrice,
                      timestamp := currentTime, reason := "RSI exit long" }
                  else holdNeutral
                else
                  if currentRsi < self.neutral ∨ currentRsi < self.oversold then
                    { signal := Signal.CLOSE, symbol := symbol, price := currentPrice,
                      timestamp := currentTime, reason := "RSI exit short" }
                  else holdNeutral)

/-- Source `strategies/ema_strategy.py`: `EMAStrategy.__init__` parameters. -/
structure EMAStrategy where
  shortPeriod : Nat := 12
  longPeriod : Nat := 26
deriving DecidableEq

/-- The recursive tail of `ewm(adjust=False).mean()`:
`y_i = (1 - alpha) * y_{i-1} + alpha * x_i`. -/
def emaFrom (alpha prev : ℚ) : List ℚ → List ℚ
  | [] => []
  | x :: rest =>
      let y := (1 - alpha) * prev + alpha * x
      y :: emaFrom alpha y rest

/-- Pandas `prices.ewm(span=period, adjust=False).mean()` with
`alpha = 2 / (span + 1)` and `y_0 = x_0` (pandas requires `span ≥ 1`). -/
def emaList (span : Nat) (xs : List ℚ) : List ℚ :=
  match xs with
  | [] => []
  | x :: rest => x :: emaFrom (2 / ((span : ℚ) + 1)) x rest

/-- The EMA series value at an index, with the `min_periods = span` mask:
indices with fewer than `span` observations are NaN (`none`). -/
def emaAt (span : Nat) (xs : List ℚ) (idx : Nat) : Option ℚ :=
  if idx + 1 < span then none else (emaList span xs).get? idx

/-- A float `<=` comparison where either side may be NaN: NaN compares
false (IEEE semantics of the un-checked `prev` values). -/
def optLeB (a b : Option ℚ) : Bool :=
  match a, b with
  | some x, some y => decide (x ≤ y)
  | _, _ => false

/-- A float `>=` comparison where either side may be NaN. -/
def optGeB (a b : Option ℚ) : Bool :=
  match a, b with
  | some x, some y => decide (x ≥ y)
  | _, _ => false

/-- Method `EMAStrategy.generate_signal`. -/
def EMAStrategy.generateSignal (self : EMAStrategy) (data : List Bar) (symbol : String)
    (currentPosition : Option Int) : Except String TradeSignal :=
  match data.getLast? with
  | none => Except.error "single positional indexer is out-of-bounds"
  | some last =>
    let currentPrice := last.close
    let currentTime := last.timestamp
    if data.length < self.longPeriod + 1 then
      Except.ok { signal := Signal.HOLD, symbol := symbol, price := currentPrice,
                  timestamp := currentTime,
                  reason := "Insufficient data for EMA calculation" }
    else
      let closes := data.map Bar.close
      let n := data.length
      let currentShort := emaAt self.shortPeriod closes (n - 1)
      let currentLong := emaAt self.longPeriod closes (n - 1)
      let prevShort := emaAt self.shortPeriod closes (n - 2)
      let prevLong := emaAt self.longPeriod closes (n - 2)
      match currentShort, currentLong with
      | some cs, some cl =>
          let bullishCrossover := optLeB prevShort prevLong && decide (cs > cl)
          let bearishCrossover := optGeB prevShort prevLong && decide (cs < cl)
          let bullishTrend := decide (cs > cl)
          let separation := |cs - cl| / cl
          let strength := min (separation * 10) 1
          let holdTrend : TradeSignal :=
            { signal := Signal.HOLD, symbol := symbol, price := currentPrice,
              timestamp := currentTime,
              reason := if bullishTrend then "No crossover, trend: bullish"
                        else "No crossover, trend: bearish" }
          let entry : TradeSignal :=
            if bullishCrossover then
              { signal := Signal.BUY, symbol := symbol, price := currentPrice,
                timestamp := currentTime, strength := strength,
                reason := "Bullish EMA crossover" }
            else if bearishCrossover then
              { signal := Signal.SELL, symbol := symbol, price := currentPrice,
                timestamp := currentTime, strength := strength,
                reason := "Bearish EMA crossover" }
            else holdTrend
          Except.ok (match currentPosition with
            | none => entry
            | some q =>
                if q = 0 then entry
                else if q > 0 then
                  if bearishCrossover then
                    { signal := Signal.CLOSE, symbol := symbol, price := currentPrice,
                      timestamp := currentTime, reason := "Exit long: Bearish EMA crossover" }
                  else holdTrend
                else
                  if bullishCrossover then
                    { signal := Signal.CLOSE, symbol := symbol, price := currentPrice,
                      timestamp := currentTime, reason := "Exit short: Bullish EMA crossover" }
                  else holdTrend)
      | _, _ =>
          Except.ok { signal := Signal.HOLD, symbol := symbol, price := currentPrice,
                      timestamp := currentTime, reason := "EMA calculation returned NaN" }

/-- Source `strategies/ma_crossover.py`: `MACrossoverStrategy.__init__` parameters. -/
structure MACrossoverStrategy where
  shortPeriod : Nat := 20
  longPeriod : Nat := 50
deriving DecidableEq

/-- Pandas `prices.rolling(window, min_periods=window).mean()` at an index:
NaN (`none`) until the window is full, the window mean afterwards. -/
def smaAt (window : Nat) (xs : List ℚ) (idx : Nat) : Option ℚ :=
  if idx + 1 < window then none
  else some ((((xs.take (idx + 1)).drop (idx + 1 - window)).sum) / (window : ℚ))

/-- Method `MACrossoverStrategy.generate_signal`. -/
def MACrossoverStrategy.generateSignal (self : MACrossoverStrategy) (data : List Bar)
    (symbol : String) (currentPosition : Option Int) : Except String TradeSignal :=
  match data.getLast? with
  | none => Except.error "single positional indexer is out-of-bounds"
  | some last =>
    let currentPrice := last.close
    let currentTime := last.timestamp
    if data.length < self.longPeriod + 1 then
      Except.ok { signal := Signal.HOLD, symbol := symbol, price := currentPrice,
                  timestamp := currentTime,
                  reason := "Insufficient data for MA calculation" }
    else
      let closes := data.map Bar.close
      let n := data.length
      let currentShort := smaAt self.shortPeriod closes (n - 1)
      let currentLong := smaAt self.longPeriod closes (n - 1)
      let prevShort := smaAt self.shortPeriod closes (n - 2)
      let prevLong := smaAt self.longPeriod closes (n - 2)
      match currentShort, currentLong with
      | some cs, some cl =>
          let goldenCross := optLeB prevShort prevLong && decide (cs > cl)
          let deathCross := optGeB prevShort prevLong && decide (cs < cl)
          let bullishTrend := decide (cs > cl)
          let strength := |cs - cl| / cl
          let holdTrend : TradeSignal :=
            { signal := Signal.HOLD, symbol := symbol, price := currentPrice,
              timestamp := currentTime,
              reason := if bullishTrend then "No crossover, trend: bullish"
                        else "No crossover, trend: bearish" }
          let entry : TradeSignal :=
            if goldenCross then
              { signal := Signal.BUY, symbol := symbol, price := currentPrice,
                timestamp := currentTime, strength := strength, reason := "Golden cross" }
            else if deathCross then
              { signal := Signal.SELL, symbol := symbol, price := currentPrice,
                timestamp := currentTime, strength := strength, reason := "Death cross" }
            else holdTrend
          Except.ok (match currentPosition with
            | none => entry
            | some q =>
                if q = 0 then entry
                else if q > 0 then
                  if deathCross then
                    { signal := Signal.CLOSE, symbol := symbol, price := currentPrice,
                      timestamp := currentTime, reason := "Exit long: Death cross detected" }
                  else holdTrend
                else
                  if goldenCross then
                    { signal := Signal.CLOSE, symbol := symbol, price := currentPrice,
                      timestamp := currentTime, reason := "Exit short: Golden cross detected" }
                  else holdTrend)
      | _, _ =>
          Except.ok { signal := Signal.HOLD, symbol := symbol, price := currentPrice,
                      timestamp := currentTime, reason := "MA calculation returned NaN" }

/-- Source `strategies/stochastic_strategy.py`: `StochasticStrategy.__init__`
parameters. -/
structure StochasticStrategy where
  kPeriod : Nat := 14
  dPeriod : Nat := 3
  oversold : ℚ := 20
  overbought : ℚ := 80
deriving DecidableEq

/-- Numpy `np.max` over a window.  The window is non-empty whenever
`k_period ≥ 1` (the only configurations the code constructs); `np.max`
of an empty array raises, which is unreachable here. -/
def npMax (l : List ℚ) : ℚ := l.foldl max (l.headD 0)

/-- Numpy `np.min` over a window. -/
def npMin (l : List ℚ) : ℚ := l.foldl min (l.headD 0)

/-- The `%K` list of `StochasticStrategy.generate_signal`: one value per
window position, `50.0` on a flat window, else
`100 * (close - lowest) / (highest - lowest)`. -/
def stochKValues (self : StochasticStrategy) (highs lows closes : List ℚ) (n : Nat) :
    List ℚ :=
  (List.range (n - self.kPeriod + 1)).map (fun i =>
    let windowHigh := (highs.drop i).take self.kPeriod
    let windowLow := (lows.drop i).take self.kPeriod
    let closePrice := (closes.drop (i + self.kPeriod - 1)).headD 0
    let highest := npMax windowHigh
    let lowest := npMin windowLow
    if highest = lowest then 50
    else 100 * (closePrice - lowest) / (highest - lowest))

/-- Pandas `pd.Series(k).rolling(window).mean()` with the default
`min_periods = window`: NaN (`none`) until the window fills. -/
def rollingMeanOpt (window : Nat) (l : List ℚ) : List (Option ℚ) :=
  (List.range l.length).map (fun i =>
    if i + 1 < window then none
    else some ((((l.take (i + 1)).drop (i + 1 - window)).sum) / (window : ℚ)))

/-- Method `StochasticStrategy.generate_signal`.  The strategy compares the raw
`current_position` with `>`/`<`; a `None` position reaches those
comparisons and raises a `TypeError` in Python, modelled as an error. -/
def StochasticStrategy.generateSignal (self : StochasticStrategy) (data : List Bar)
    (symbol : String) (currentPosition : Option Int) : Except String TradeSignal :=
  match data.getLast? with
  | none => Except.error "single positional indexer is out-of-bounds"
  | some last =>
    let currentPrice := last.close
    let currentTime := last.timestamp
    if data.length < self.kPeriod + self.dPeriod then
      Except.ok { signal := Signal.HOLD, symbol := symbol, price := currentPrice,
                  timestamp := currentTime, strength := 0,
                  reason := "Insufficient data" }
    else
      let highs := data.map Bar.high
      let lows := data.map Bar.low
      let closes := data.map Bar.close
      let kValues := stochKValues self highs lows closes data.length
      if kValues.length < self.dPeriod then
        Except.ok { signal := Signal.HOLD, symbol := symbol, price := currentPrice,
                    timestamp := currentTime, strength := 0,
                    reason := "Insufficient K values" }
      else
        let dValues := rollingMeanOpt self.dPeriod kValues
        let currentK := kValues.getLast?.getD 0
        let currentD := (dValues.getLast?).getD none
        let prevK := if kValues.length > 1 then
            (kValues.drop (kValues.length - 2)).headD 0 else currentK
        let prevD := if dValues.length > 1 then
            ((dValues.drop (dValues.length - 2)).headD none) else currentD
        match currentD, prevD with
        | some cd, some pdv =>
            (match currentPosition with
              | some q =>
                  if q = 0 then
                    if currentK < self.oversold ∧ prevK < pdv ∧ currentK > cd then
                      Except.ok { signal := Signal.BUY, symbol := symbol,
                                  price := currentPrice, timestamp := currentTime,
                                  strength := 1,
                                  reason := "Stochastic oversold crossover" }
                    else if currentK > self.overbought ∧ prevK > pdv ∧ currentK < cd then
                      Except.ok { signal := Signal.SELL, symbol := symbol,
                                  price := currentPrice, timestamp := currentTime,
                                  strength := 1,
                                  reason := "Stochastic overbought crossover" }
                    else
                      Except.ok { signal := Signal.HOLD, symbol := symbol,
                                  price := currentPrice, timestamp := currentTime,
                                  strength := 0, reason := "Stochastic neutral" }
                  else if q > 0 then
                    if currentK > 60 ∨ (currentK < cd ∧ currentK > self.oversold) then
                      Except.ok { signal := Signal.CLOSE, symbol := symbol,
                                  price := currentPrice, timestamp := currentTime,
                                  strength := 1, reason := "Exit long" }
                    else
                      Except.ok { signal := Signal.HOLD, symbol := symbol,
                                  price := currentPrice, timestamp := currentTime,
                                  strength := 0, reason := "Stochastic neutral" }
                  else
                    if currentK < 40 ∨ (currentK > cd ∧ currentK < self.overbought) then
                      Except.ok { signal := Signal.CLOSE, symbol := symbol,
                                  price := currentPrice, timestamp := currentTime,
                                  strength := 1, reason := "Exit short" }
                    else
                      Except.ok { signal := Signal.HOLD, symbol := symbol,
                                  price := currentPrice, timestamp := currentTime,
                                  strength := 0, reason := "Stochastic neutral" }
              | none =>
                  Except.error "unsupported comparison between instances of NoneType and int")
        | _, _ =>
            Except.ok { signal := Signal.HOLD, symbol := symbol, price := currentPrice,
                        timestamp := currentTime, strength := 0,
                        reason := "Invalid D values" }

/-- Source `strategies/combined_strategy.py`: `CombinedStrategy.__init__`
builds an `RSIStrategy` and an `EMAStrategy` from its parameters. -/
structure CombinedStrategy where
  rsi : RSIStrategy := {}
  ema : EMAStrategy := {}
  confirmationThreshold : Nat := 2
deriving DecidableEq

/-- Method `CombinedStrategy.generate_signal`. -/
def CombinedStrategy.generateSignal (self : CombinedStrategy) (data : List Bar)
    (symbol : String) (currentPosition : Option Int) : Except String TradeSignal :=
  match data.getLast? with
  | none => Except.error "single positional indexer is out-of-bounds"
  | some last =>
    let currentPrice := last.close
    let currentTime := last.timestamp
    if data.length < max self.rsi.period self.ema.longPeriod + 1 then
      Except.ok { signal := Signal.HOLD, symbol := symbol, price := currentPrice,
                  timestamp := currentTime,
                  reason := "Insufficient data for combined strategy" }
    else do
      let rsiSignal ← self.rsi.generateSignal data symbol currentPosition
      let emaSignal ← self.ema.generateSignal data symbol currentPosition
      let closes := data.map Bar.close
      let n := data.length
      let currentRsi := rsiLast closes self.rsi.period
      let currentShortEma := emaAt self.ema.shortPeriod closes (n - 1)
      let currentLongEma := emaAt self.ema.longPeriod closes (n - 1)
      match currentRsi, currentShortEma, currentLongEma with
      | some _, some cs, some cl =>
          let bullishTrend := decide (cs > cl)
          let bearishTrend := decide (cs < cl)
          let bullishVotes : Nat :=
            (if rsiSignal.signal = Signal.BUY then 1 else 0) +
            (if bullishTrend then 1 else 0) +
            (if emaSignal.signal = Signal.BUY then 1 else 0)
          let bearishVotes : Nat :=
            (if rsiSignal.signal = Signal.SELL then 1 else 0) +
            (if bearishTrend then 1 else 0) +
            (if emaSignal.signal = Signal.SELL then 1 else 0)
          let holdDefault : TradeSignal :=
            { signal := Signal.HOLD, symbol := symbol, price := currentPrice,
              timestamp := currentTime, reason := "Insufficient confirmation" }
          let entry : TradeSignal :=
            if bullishVotes ≥ self.confirmationThreshold then
              { signal := Signal.BUY, symbol := symbol, price := currentPrice,
                timestamp := currentTime, strength := (bullishVotes : ℚ) / 3,
                reason := "Buy confirmed" }
            else if bearishVotes ≥ self.confirmationThreshold then
              { signal := Signal.SELL, symbol := symbol, price := currentPrice,
                timestamp := currentTime, strength := (bearishVotes : ℚ) / 3,
                reason := "Sell confirmed" }
            else holdDefault
          pure (match currentPosition with
            | none => entry
            | some q =>
                if q = 0 then entry
                else if q > 0 then
                  if bearishVotes ≥ 2 ∨ rsiSignal.signal = Signal.CLOSE then
                    { signal := Signal.CLOSE, symbol := symbol, price := currentPrice,
                      timestamp := currentTime, reason := "Exit long" }
                  else holdDefault
                else
                  if bullishVotes ≥ 2 ∨ rsiSignal.signal = Signal.CLOSE then
                    { signal := Signal.CLOSE, symbol := symbol, price := currentPrice,
                      timestamp := currentTime, reason := "Exit short" }
                  else holdDefault)
      | _, _, _ =>
          pure { signal := Signal.HOLD, symbol := symbol, price := currentPrice,
                 timestamp := currentTime, reason := "Indicator calculation returned NaN" }

/-- The polymorphic strategy interface (`BaseStrategy` subclasses) as a
sum type. -/
inductive Strategy where
  | rsi (s : RSIStrategy)
  | ma (s : MACrossoverStrategy)
  | ema (s : EMAStrategy)
  | combined (s : CombinedStrategy)
  | stochastic (s : StochasticStrategy)
deriving DecidableEq

/-- The minimum history length below which each strategy's opening guard
returns the insufficient-data HOLD. -/
def Strategy.minLength : Strategy → Nat
  | Strategy.rsi s => s.period + 1
  | Strategy.ma s => s.longPeriod + 1
  | Strategy.ema s => s.longPeriod + 1
  | Strategy.combined s => max s.rsi.period s.ema.longPeriod + 1
  | Strategy.stochastic s => s.kPeriod + s.dPeriod

/-- Dynamic dispatch of `generate_signal`. -/
def Strategy.generateSignal : Strategy → List Bar → String → Option Int →
    Except String TradeSignal
  | Strategy.rsi s => s.generateSignal
  | Strategy.ma s => s.generateSignal
  | Strategy.ema s => s.generateSignal
  | Strategy.combined s => s.generateSignal
  | Strategy.stochastic s => s.generateSignal

/-- Source `analysis/market_regime.py`: the `MarketRegime` constants. -/
inductive MarketRegime where
  | UPTREND
  | DOWNTREND
  | SIDEWAYS
deriving DecidableEq

/-- The dictionary returned by
`MarketRegimeAnalyzer.get_market_conditions`. -/
structure MarketConditions where
  trend : MarketRegime
  volatility : ℚ
  adx : ℚ
  volume : String
  trending : Bool
  sideways : Bool
deriving DecidableEq

/-- The routing logic of `AdaptiveStrategySelector.select_strategy`
(`adaptive_selector.py` lines 26-46), mapping the analyzed market
conditions to the concrete strategy instance it constructs. -/
def selectStrategy (conds : MarketConditions) : Strategy :=
  if conds.sideways = true ∨ conds.adx < 20 then
    Strategy.stochastic { kPeriod := 14, dPeriod := 3, oversold := 20, overbought := 80 }
  else if conds.trend = MarketRegime.UPTREND ∧ conds.volatility < 20 then
    Strategy.ema { shortPeriod := 12, longPeriod := 26 }
  else if conds.trend = MarketRegime.DOWNTREND ∧ conds.volatility < 20 then
    Strategy.ema { shortPeriod := 12, longPeriod := 26 }
  else if conds.volatility > 30 then
    Strategy.rsi { period := 14, oversold := 30, overbought := 70, neutral := 50 }
  else
    Strategy.combined
      { rsi := { period := 14, oversold := 30, overbought := 70, neutral := 50 },
        ema := { shortPeriod := 12, longPeriod := 26 },
        confirmationThreshold := 2 }

/-- Class `AdaptiveStrategySelector` state: the cached
`self.current_strategy` (initially `None`). -/
structure AdaptiveStrategySelector where
  currentStrategy : Option Strategy := none
deriving DecidableEq

/-- Method `AdaptiveStrategySelector.generate_signal`.  The regime analyzer
(`MarketRegimeAnalyzer.get_market_conditions`, whose float std/sqrt/
polyfit computations are not rational) is abstracted as the `analyze`
parameter; the model faithfully keeps the selector's control flow:
`select_strategy` runs only when `self.current_strategy is None`, and the
cached strategy produces the signal.  The result pairs the produced
signal with the strategy that produced it, plus the updated selector. -/
def AdaptiveStrategySelector.generateSignal (analyze : List Bar → MarketConditions)
    (sel : AdaptiveStrategySelector) (data : List Bar) (symbol : String)
    (pos : Option Int) : (Except String TradeSignal × Strategy) × AdaptiveStrategySelector :=
  match sel.currentStrategy with
  | none =>
      let s := selectStrategy (analyze data)
      ((s.generateSignal data symbol pos, s), { currentStrategy := some s })
  | some s => ((s.generateSignal data symbol pos, s), sel)

def c6CondsSideways : MarketConditions :=
  { trend := MarketRegime.SIDEWAYS, volatility := 10, adx := 10,
    volume := "NEUTRAL", trending := false, sideways := true }

def c6CondsHighVol : MarketConditions :=
  { trend := MarketRegime.SIDEWAYS, volatility := 40, adx := 50,
    volume := "NEUTRAL", trending := true, sideways := false }

/-- A concrete regime analyzer (an instantiation of the abstracted
`get_market_conditions`): short histories read as sideways, longer ones
as high-volatility. -/
def c6Analyze : List Bar → MarketConditions :=
  fun bars => if bars.length ≤ 1 then c6CondsSideways else c6CondsHighVol

def c6Bar : Bar :=
  { timestamp := 0, openPrice := 100, high := 100, low := 100, close := 100, volume := 0 }

def c6Run1 : (Except String TradeSignal × Strategy) × AdaptiveStrategySelector :=
  AdaptiveStrategySelector.generateSignal c6Analyze { currentStrategy := none }
    [c6Bar] "S" (some 0)

def c6Run2 : (Except String TradeSignal × Strategy) × AdaptiveStrategySelector :=
  AdaptiveStrategySelector.generateSignal c6Analyze c6Run1.2
    [c6Bar, c6Bar] "S" (some 0)

def c8Bar : Bar :=
  { timestamp := 0, openPrice := 100, high := 100, low := 100, close := 100, volume := 0 }

/-- A left fold accumulating additions equals the starting value plus the
sum of the mapped list. -/
theorem foldl_add_eq {α : Type} (f : α → ℚ) (l : List α) (a : ℚ) :
    l.foldl (fun acc x => acc + f x) a = a + (l.map f).sum := by
  induction l generalizing a with
  | nil => simp
  | cons x xs ih => simp [ih]; ring

/-- Looking up a key just stored finds the stored value. -/
theorem posGet_posSet (l : PositionBook) (sym : String) (p : Position) :
    posGet (posSet l sym p) sym = some p := by
  induction l with
  | nil => simp [posSet, posGet]
  | cons hd tl ih =>
    obtain ⟨s, q⟩ := hd
    by_cases h : s = sym
    · simp [posSet, posGet, h]
    · simp [posSet, posGet, h, ih]

/-- C1: in the scenario capital=10,000, leverage=1, slippage=0,
commission=0, the code matches the claim up to the final fill — BUY 10 @
100 leaves cash 9,000 and a long position of 10 at entry 100, the
unrealized P&L at price 110 is +100, and SELL 10 @ 110 realizes +100 and
removes the position — but the final cash is 9,100, not the claimed
10,100: the full-close branch credits `realized_pnl - commission` only
and never returns the margin debited when the position was opened. -/
theorem C1_scenario_eval :
    c1Step1.1 = true ∧
    c1Step1.2.1.cash = 9000 ∧
    posGet c1Step1.2.1.positions "SYM" =
      some { symbol := "SYM", quantity := 10, entryPrice := 100,
             entryTimestamp := 0, leverage := 1 } ∧
    c1Step1.2.1.getTotalUnrealizedPnl c1Prices110 = 100 ∧
    c1Step2.1 = true ∧
    c1Step2.2.1.getTotalRealizedPnl = 100 ∧
    posGet c1Step2.2.1.positions "SYM" = none ∧
    c1Step2.2.1.cash = 9100 := by
  norm_num [c1Step2, c1Step1, c1E0, c1Buy, c1Sell, c1Prices110,
    ExecutionEngine.mk0, ExecutionEngine.executeMarketOrder,
    ExecutionEngine.applySlippage, ExecutionEngine.calculateCommission,
    ExecutionEngine.calculateAvailableCapital, ExecutionEngine.updatePositionFromOrder,
    ExecutionEngine.getTotalUnrealizedPnl, ExecutionEngine.getTotalRealizedPnl,
    Order.fill, Order.reject, posGet, posSet, posDel, Position.close,
    Position.calculateUnrealizedPnl, Position.calculateUnrealizedPnlPercentage,
    Position.getMarginRequired, Position.getPositionValue] <;>
  simp +decide <;> norm_num

/-- C2 counterexample: a SELL order for 10 units at price 100 against an
engine holding only 100 of cash has required margin 1,000, strictly more
than the available capital 100, yet `execute_market_order` fills it,
returns true and mutates cash — the margin-admission check runs only for
BUY orders, so the claim quantified over both sides is false. -/
theorem C2_counterexample :
    (|(c2Sell.quantity : ℚ)| * c2E.applySlippage 100 c2Sell.side
        + c2E.calculateCommission c2Sell.quantity (c2E.applySlippage 100 c2Sell.side))
        / c2E.maxLeverage
      > c2E.calculateAvailableCapital (fun _ => none) ∧
    c2Res.1 = true ∧
    c2Res.2.2.status = OrderStatus.FILLED ∧
    c2Res.2.1.cash ≠ c2E.cash := by
  norm_num [c2Res, c2E, c2Sell, ExecutionEngine.mk0, ExecutionEngine.executeMarketOrder,
    ExecutionEngine.applySlippage, ExecutionEngine.calculateCommission,
    ExecutionEngine.calculateAvailableCapital, ExecutionEngine.updatePositionFromOrder,
    Order.fill, Order.reject, posGet, posSet, posDel] <;>
  simp +decide <;> norm_num

/-- C2 (amended to BUY orders): a BUY order whose required margin
`(trade_value + commission) / max_leverage` strictly exceeds
`calculate_available_capital` is rejected: the call returns false, the
engine state (cash, position book, closed-position log) is unchanged, and
the order's status becomes REJECTED. -/
theorem C2_buy_margin_rejection (e : ExecutionEngine) (o : Order) (cp : ℚ)
    (prices : PriceMap) (ts : Nat)
    (hbuy : o.side = OrderSide.BUY)
    (hmargin : (|(o.quantity : ℚ)| * e.applySlippage cp o.side
        + e.calculateCommission o.quantity (e.applySlippage cp o.side)) / e.maxLeverage
        > e.calculateAvailableCapital prices) :
    e.executeMarketOrder o cp prices ts =
      (false, e, { o with status := OrderStatus.REJECTED }) := by
  simp only [ExecutionEngine.executeMarketOrder, Order.reject]
  rw [if_pos ⟨hbuy, hmargin⟩]

/-- Witness for `C2_buy_margin_rejection` at a concrete over-sized BUY. -/
theorem C2_buy_margin_rejection_witness :
    (ExecutionEngine.mk0 100 1 0 0).executeMarketOrder
        { symbol := "S", side := OrderSide.BUY, quantity := 10 } 100 (fun _ => none) 0 =
      (false, ExecutionEngine.mk0 100 1 0 0,
       { symbol := "S", side := OrderSide.BUY, quantity := 10,
         status := OrderStatus.REJECTED }) :=
  C2_buy_margin_rejection _ _ _ _ _ rfl (by
    norm_num [ExecutionEngine.mk0, ExecutionEngine.applySlippage,
      ExecutionEngine.calculateCommission, ExecutionEngine.calculateAvailableCapital])

/-- C9: a SELL market order is executed with no margin-admission check at
all: for every engine state and price mapping it returns true, the order
is marked FILLED, and the engine state is the position-book/cash update
applied to the filled order — the reject path is unreachable for SELL. -/
theorem C9_sell_never_checked (e : ExecutionEngine) (o : Order) (cp : ℚ)
    (prices : PriceMap) (ts : Nat) (hsell : o.side = OrderSide.SELL) :
    (o.fill (e.applySlippage cp o.side) ts).status = OrderStatus.FILLED ∧
    e.executeMarketOrder o cp prices ts =
      (true,
       ExecutionEngine.updatePositionFromOrder
         { e with filledOrders := e.filledOrders ++ [o.fill (e.applySlippage cp o.side) ts] }
         (o.fill (e.applySlippage cp o.side) ts)
         (e.calculateCommission o.quantity (e.applySlippage cp o.side)),
       o.fill (e.applySlippage cp o.side) ts) := by
  refine ⟨rfl, ?_⟩
  simp only [ExecutionEngine.executeMarketOrder]
  rw [if_neg]
  rintro ⟨h1, -⟩
  rw [hsell] at h1
  exact absurd h1 (by decide)

/-- Witness for `C9_sell_never_checked` at a concrete SELL order. -/
theorem C9_sell_never_checked_witness :
    ((c2Sell.fill (c2E.applySlippage 100 c2Sell.side) 0).status = OrderStatus.FILLED ∧
     c2E.executeMarketOrder c2Sell 100 (fun _ => none) 0 =
      (true,
       ExecutionEngine.updatePositionFromOrder
         { c2E with filledOrders :=
             c2E.filledOrders ++ [c2Sell.fill (c2E.applySlippage 100 c2Sell.side) 0] }
         (c2Sell.fill (c2E.applySlippage 100 c2Sell.side) 0)
         (c2E.calculateCommission c2Sell.quantity (c2E.applySlippage 100 c2Sell.side)),
       c2Sell.fill (c2E.applySlippage 100 c2Sell.side) 0)) :=
  C9_sell_never_checked c2E c2Sell 100 (fun _ => none) 0 rfl

/-- C3: for every engine state reachable by any sequence of executed
market orders and every price mapping, cash plus the (independently
stated) sum of unrealized P&L over all open positions equals
`get_total_portfolio_value`. -/
theorem C3_conservation (e : ExecutionEngine) (he : Reachable e) (prices : PriceMap) :
    e.cash + sumUnrealizedPnl e.positions prices = e.getTotalPortfolioValue prices := by
  simp [ExecutionEngine.getTotalPortfolioValue, sumUnrealizedPnl, foldl_add_eq]

/-- Witness for `C3_conservation`: the conservation identity at the
engine state reached by one executed BUY, observed at price 110. -/
theorem C3_conservation_witness :
    c1Step1.2.1.cash + sumUnrealizedPnl c1Step1.2.1.positions c1Prices110
      = c1Step1.2.1.getTotalPortfolioValue c1Prices110 :=
  C3_conservation _ (Reachable.step _ _ _ _ _ (Reachable.init 10000 1 0 0)) c1Prices110

/-- C4 counterexample: a SELL of 5 against an open long of 10 is a fill
that reduces the position (a partial close), yet it appends no
`ClosedPosition` record at all — the closed-position log stays empty, not
length 1 as the claim requires; the partial-close branch credits the
realized P&L directly to cash without emitting a record. -/
theorem C4_counterexample :
    c4Res.1 = true ∧
    posGet c4Res.2.1.positions "S" =
      some { symbol := "S", quantity := 5, entryPrice := 100,
             entryTimestamp := 0, leverage := 1 } ∧
    c4Res.2.1.closedPositions.length = 0 := by
  norm_num [c4Res, c4E, ExecutionEngine.executeMarketOrder,
    ExecutionEngine.applySlippage, ExecutionEngine.calculateCommission,
    ExecutionEngine.calculateAvailableCapital, ExecutionEngine.updatePositionFromOrder,
    Order.fill, posGet, posSet, posDel, Position.getMarginRequired,
    Position.getPositionValue] <;>
  simp +decide <;> norm_num

/-- C4 (amended): a fill appends exactly one `ClosedPosition` record when
it closes the whole existing position (full close or the closing leg of a
reversal) and none otherwise — in particular a partial close appends
none; and every fill charges its commission exactly once (the cash after
the update is the commission-free cash minus the commission, scaled once
by either 1 or `1/max_leverage` depending on the branch taken). -/
theorem C4_closed_log_and_commission (e : ExecutionEngine) (o : Order) (com : ℚ) :
    (e.updatePositionFromOrder o com).closedPositions.length
      = e.closedPositions.length + (if closesEntirePosition e o then 1 else 0) ∧
    ∃ w : ℚ, (w = 1 ∨ w = 1 / e.maxLeverage) ∧
      (e.updatePositionFromOrder o com).cash
        = (e.updatePositionFromOrder o 0).cash - com * w := by
  unfold ExecutionEngine.updatePositionFromOrder closesEntirePosition
  cases h : posGet e.positions o.symbol with
  | none =>
      simp only [h]
      refine ⟨by simp, 1 / e.maxLeverage, Or.inr rfl, ?_⟩
      by_cases hside : o.side = OrderSide.BUY <;>
        first
          | (simp [hside]; done)
          | (simp [hside]; ring; done)
  | some p =>
      simp only [h]
      refine ⟨?_, ?_⟩
      · split_ifs <;> simp_all [List.length_append] <;> omega
      · split_ifs <;>
          first
            | (refine ⟨1, Or.inl rfl, ?_⟩; simp; done)
            | (refine ⟨1, Or.inl rfl, ?_⟩; simp; ring; done)
            | (refine ⟨1 / e.maxLeverage, Or.inr rfl, ?_⟩; simp; done)
            | (refine ⟨1 / e.maxLeverage, Or.inr rfl, ?_⟩; simp; ring; done)

/-- C5: an opposite-side fill strictly larger than the existing position
(a reversal) appends exactly one `ClosedPosition` for the old position
and leaves exactly one new position at the order's symbol, sized to the
remainder, in the opposite direction, with entry price equal to the fill
price (not a blend of old and new prices). -/
theorem C5_reversal (e : ExecutionEngine) (o : Order) (com : ℚ) (p : Position) (q : Int)
    (hq : q = if o.side = OrderSide.BUY then o.quantity else -o.quantity)
    (hp : posGet e.positions o.symbol = some p)
    (hopp : (p.quantity > 0 ∧ q < 0) ∨ (p.quantity < 0 ∧ q > 0))
    (habs : p.quantity.natAbs < q.natAbs) :
    (e.updatePositionFromOrder o com).closedPositions
      = e.closedPositions ++ [p.close (o.fillPrice.getD 0) (o.fillTimestamp.getD 0)] ∧
    posGet (e.updatePositionFromOrder o com).positions o.symbol
      = some { symbol := o.symbol, quantity := p.quantity + q,
               entryPrice := o.fillPrice.getD 0,
               entryTimestamp := o.fillTimestamp.getD 0,
               leverage := e.maxLeverage } ∧
    (0 < p.quantity → p.quantity + q < 0) ∧
    (p.quantity < 0 → 0 < p.quantity + q) := by
  simp only [ExecutionEngine.updatePositionFromOrder, hp, ← hq]
  rw [if_pos hopp, if_pos (le_of_lt habs), if_pos habs]
  refine ⟨by simp, by simp [posGet_posSet], ?_, ?_⟩ <;> omega

/-- Witness for `C5_reversal`: selling 15 against a long of 10 closes the
long and opens a short of 5 at the fill price 110. -/
theorem C5_reversal_witness :
    (c5E.updatePositionFromOrder c5Sell 0).closedPositions
      = c5E.closedPositions ++ [c5Pos.close 110 1] ∧
    posGet (c5E.updatePositionFromOrder c5Sell 0).positions "S"
      = some { symbol := "S", quantity := -5, entryPrice := 110,
               entryTimestamp := 1, leverage := 1 } ∧
    (0 < c5Pos.quantity → c5Pos.quantity + -15 < 0) ∧
    (c5Pos.quantity < 0 → 0 < c5Pos.quantity + -15) := by
  have h := C5_reversal c5E c5Sell 0 c5Pos (-15) (by decide)
    (by simp [c5E, c5Pos, c5Sell, posGet]) (by decide) (by decide)
  simpa [c5Sell, c5Pos, c5E] using h

/-- Positions whose symbol is absent from the price mapping contribute
zero to the claim-side unrealized sum: filtering them out does not change
the total. -/
theorem sumUnrealizedPnl_filter (book : PositionBook) (prices : PriceMap) :
    sumUnrealizedPnl book prices
      = sumUnrealizedPnl (book.filter (fun sp => (prices sp.1).isSome)) prices := by
  induction book with
  | nil => rfl
  | cons hd tl ih =>
    obtain ⟨s, p⟩ := hd
    cases hpr : prices s with
    | none =>
        simp [sumUnrealizedPnl, hpr, Position.calculateUnrealizedPnl] at ih ⊢
        exact ih
    | some v => simp [sumUnrealizedPnl, hpr] at ih ⊢; exact ih

/-- C10: an open position whose symbol is absent from the supplied price
mapping is priced at its own entry price by `get_total_portfolio_value`
and `get_total_unrealized_pnl`, so it contributes exactly 0 unrealized
P&L (the totals equal the sums over only the positions whose symbols are
present), and the lookup is total — no error path exists. -/
theorem C10_missing_price_fallback (e : ExecutionEngine) (prices : PriceMap) :
    e.getTotalUnrealizedPnl prices
      = sumUnrealizedPnl (e.positions.filter (fun sp => (prices sp.1).isSome)) prices ∧
    e.getTotalPortfolioValue prices
      = e.cash + sumUnrealizedPnl (e.positions.filter (fun sp => (prices sp.1).isSome)) prices := by
  have h1 : e.getTotalUnrealizedPnl prices = sumUnrealizedPnl e.positions prices := by
    simp [ExecutionEngine.getTotalUnrealizedPnl, sumUnrealizedPnl, foldl_add_eq]
  have h2 : e.getTotalPortfolioValue prices = e.cash + sumUnrealizedPnl e.positions prices := by
    simp [ExecutionEngine.getTotalPortfolioValue, sumUnrealizedPnl, foldl_add_eq]
  rw [h1, h2, sumUnrealizedPnl_filter]
  exact ⟨rfl, rfl⟩

theorem le_runningPeak (st : DrawdownState) (x : ℚ) : x ≤ runningPeak st x := by
  unfold runningPeak
  split_ifs with h
  · exact le_refl x
  · linarith [not_lt.mp h]

theorem drawdownStep_maxDd_mono (st : DrawdownState) (x : ℚ) :
    st.maxDdDollars ≤ (drawdownStep st x).maxDdDollars := by
  simp only [drawdownStep]
  split_ifs with h <;> simp <;> linarith

theorem foldl_drawdown_mono (l : List (Nat × ℚ)) (st : DrawdownState) :
    st.maxDdDollars ≤ (l.foldl (fun st te => drawdownStep st te.2) st).maxDdDollars := by
  induction l generalizing st with
  | nil => exact le_refl _
  | cons hd tl ih => exact le_trans (drawdownStep_maxDd_mono st hd.2) (ih _)

theorem drawdownStep_inv (st : DrawdownState) (x : ℚ) (hx : 0 ≤ x)
    (h1 : 0 ≤ st.maxDdDollars) (h2 : st.maxDdPct ≤ 100) :
    0 ≤ (drawdownStep st x).maxDdDollars ∧ (drawdownStep st x).maxDdPct ≤ 100 := by
  have hxp : x ≤ runningPeak st x := le_runningPeak st x
  simp only [drawdownStep]
  split_ifs with hdd hp
  · refine ⟨by simpa using le_trans h1 (le_of_lt hdd), ?_⟩
    have hratio : (runningPeak st x - x) / runningPeak st x ≤ 1 :=
      (div_le_one hp).mpr (by linarith)
    simp only
    nlinarith [hratio]
  · exact ⟨by simpa using le_trans h1 (le_of_lt hdd), by simpa using le_trans h2 (by norm_num)⟩
  · exact ⟨by simpa using h1, by simpa using h2⟩

theorem foldl_drawdown_inv (l : List (Nat × ℚ)) (st : DrawdownState)
    (hl : ∀ te ∈ l, 0 ≤ te.2) (h1 : 0 ≤ st.maxDdDollars) (h2 : st.maxDdPct ≤ 100) :
    0 ≤ (l.foldl (fun st te => drawdownStep st te.2) st).maxDdDollars ∧
    (l.foldl (fun st te => drawdownStep st te.2) st).maxDdPct ≤ 100 := by
  induction l generalizing st with
  | nil => exact ⟨h1, h2⟩
  | cons hd tl ih =>
      have hhd : 0 ≤ hd.2 := hl hd (List.mem_cons_self hd tl)
      have hstep := drawdownStep_inv st hd.2 hhd h1 h2
      exact ih _ (fun te hte => hl te (List.mem_cons_of_mem hd hte)) hstep.1 hstep.2

/-- C7: for every equity history with non-negative equity values, the
dollar max drawdown is ≥ 0 and the percentage max drawdown is ≤ 100; and
the dollar max drawdown over any prefix of the history is at most the one
over the full history (prefix-monotonicity of the single scan). -/
theorem C7_drawdown_bounds (init : ℚ) (l1 l2 : List (Nat × ℚ))
    (hpre : l1 <+: l2) (hnn : ∀ te ∈ l2, 0 ≤ te.2) :
    0 ≤ (getMaxDrawdown init l2).1 ∧
    (getMaxDrawdown init l2).2 ≤ 100 ∧
    (getMaxDrawdown init l1).1 ≤ (getMaxDrawdown init l2).1 := by
  obtain ⟨t, rfl⟩ := hpre
  by_cases h2 : l1 ++ t = []
  · have h1e : l1 = [] := by
      cases l1 with
      | nil => rfl
      | cons a l => simp at h2
    subst h1e
    simp_all [getMaxDrawdown]
  · have hfold := foldl_drawdown_inv (l1 ++ t)
      { maxDdDollars := 0, maxDdPct := 0, peak := init } hnn (le_refl 0) (by norm_num)
    refine ⟨?_, ?_, ?_⟩
    · simpa [getMaxDrawdown, List.isEmpty_iff, h2] using hfold.1
    · simpa [getMaxDrawdown, List.isEmpty_iff, h2] using hfold.2
    · by_cases h1 : l1 = []
      · subst h1
        have ht : t ≠ [] := by simpa using h2
        simpa [getMaxDrawdown, List.isEmpty_iff, ht] using hfold.1
      · have hsplit : ((l1 ++ t).foldl (fun st te => drawdownStep st te.2)
            { maxDdDollars := 0, maxDdPct := 0, peak := init })
            = t.foldl (fun st te => drawdownStep st te.2)
                (l1.foldl (fun st te => drawdownStep st te.2)
                  { maxDdDollars := 0, maxDdPct := 0, peak := init }) :=
          List.foldl_append _ _ _ _
        simp only [getMaxDrawdown, List.isEmpty_iff, h1, h2, if_false]
        rw [hsplit]
        exact foldl_drawdown_mono t _

/-- Witness for `C7_drawdown_bounds`: equity path 90 then 80 from initial
capital 100, with the one-element prefix. -/
theorem C7_drawdown_bounds_witness :
    0 ≤ (getMaxDrawdown 100 [(0, 90), (1, 80)]).1 ∧
    (getMaxDrawdown 100 [(0, 90), (1, 80)]).2 ≤ 100 ∧
    (getMaxDrawdown 100 [(0, 90)]).1 ≤ (getMaxDrawdown 100 [(0, 90), (1, 80)]).1 :=
  C7_drawdown_bounds 100 [(0, 90)] [(0, 90), (1, 80)] ⟨[(1, 80)], rfl⟩ (by norm_num)

/-- C6 counterexample: the first `generate_signal` call routes by regime
(sideways → Stochastic) and caches it; the second call's history analyzes
to a high-volatility regime whose per-call route would be RSI, yet the
signal is still produced by the cached Stochastic strategy — the selector
does not re-run regime analysis on each call. -/
theorem C6_counterexample :
    c6Run1.1.2 = Strategy.stochastic
      { kPeriod := 14, dPeriod := 3, oversold := 20, overbought := 80 } ∧
    selectStrategy (c6Analyze [c6Bar, c6Bar]) = Strategy.rsi
      { period := 14, oversold := 30, overbought := 70, neutral := 50 } ∧
    c6Run2.1.2 = Strategy.stochastic
      { kPeriod := 14, dPeriod := 3, oversold := 20, overbought := 80 } ∧
    c6Run2.1.2 ≠ selectStrategy (c6Analyze [c6Bar, c6Bar]) := by
  refine ⟨?_, ?_, ?_, ?_⟩ <;>
    first
      | decide
      | norm_num [c6Run2, c6Run1, c6Analyze, c6CondsSideways, c6CondsHighVol,
          AdaptiveStrategySelector.generateSignal, selectStrategy]
      | (norm_num [c6Run2, c6Run1, c6Analyze, c6CondsSideways, c6CondsHighVol,
          AdaptiveStrategySelector.generateSignal, selectStrategy] <;> decide)

/-- C6 (amended): the selector runs regime analysis and routes only on
the first `generate_signal` call (when no strategy is cached); the chosen
strategy is cached in `current_strategy` and produces the signal on every
subsequent call, whatever regime the later histories analyze to. -/
theorem C6_selector_caches_first_choice (analyze : List Bar → MarketConditions)
    (d1 d2 : List Bar) (s1 s2 : String) (p1 p2 : Option Int) :
    (AdaptiveStrategySelector.generateSignal analyze
        { currentStrategy := none } d1 s1 p1).1.2 = selectStrategy (analyze d1) ∧
    (AdaptiveStrategySelector.generateSignal analyze
        (AdaptiveStrategySelector.generateSignal analyze
          { currentStrategy := none } d1 s1 p1).2 d2 s2 p2).1.2
      = selectStrategy (analyze d1) :=
  ⟨rfl, rfl⟩

/-- All consecutive differences of a constant list are zero. -/
theorem diffs_zero (l : List ℚ) (c : ℚ) (h : ∀ x ∈ l, x = c) :
    ∀ d ∈ diffs l, d = 0 := by
  induction l with
  | nil => simp [diffs]
  | cons a tl ih =>
    cases tl with
    | nil => simp [diffs]
    | cons b tl2 =>
      intro d hd
      rw [diffs] at hd
      rcases List.mem_cons.mp hd with h1 | h2
      · have ha := h a (by simp)
        have hb := h b (by simp)
        rw [h1, ha, hb]; ring
      · exact ih (fun x hx => h x (List.mem_cons_of_mem a hx)) d h2

/-- On a flat close window the RSI is NaN: gains and losses both average
to zero, `rs = 0/0` is NaN and propagates. -/
theorem rsiLast_flat (closes : List ℚ) (period : Nat) (c : ℚ)
    (h : ∀ x ∈ closes, x = c) : rsiLast closes period = none := by
  have hd : ∀ d ∈ diffs closes, d = 0 := diffs_zero closes c h
  have hg : (lastN period ((diffs closes).map (fun d => max d 0))).sum = 0 := by
    apply List.sum_eq_zero
    intro x hx
    have hx2 : x ∈ (diffs closes).map (fun d => max d 0) :=
      List.drop_subset _ _ hx
    obtain ⟨d, hdm, rfl⟩ := List.mem_map.mp hx2
    simp [hd d hdm]
  have hlz : (lastN period ((diffs closes).map (fun d => max (-d) 0))).sum = 0 := by
    apply List.sum_eq_zero
    intro x hx
    have hx2 : x ∈ (diffs closes).map (fun d => max (-d) 0) :=
      List.drop_subset _ _ hx
    obtain ⟨d, hdm, rfl⟩ := List.mem_map.mp hx2
    simp [hd d hdm]
  unfold rsiLast
  simp only [lastN, List.length_map] at hg hlz ⊢
  rw [hg, hlz]
  simp [zero_div]

/-- C8 counterexample: on an empty bar history (length 0, which is
shorter than every strategy minimum) `generate_signal` does not return
HOLD — the insufficient-data branch itself evaluates
`data['close'].iloc[-1]`, which raises an IndexError on an empty frame. -/
theorem C8_counterexample :
    Strategy.generateSignal (Strategy.rsi {}) [] "S" none
      = Except.error "single positional indexer is out-of-bounds" ∧
    ([] : List Bar).length < (Strategy.rsi {}).minLength :=
  ⟨rfl, by decide⟩

/-- C8 (amended): for every strategy and every NON-EMPTY bar history
shorter than the strategy's minimum length, `generate_signal` returns a
HOLD signal with a non-empty explanatory reason and raises no error; and
(the undefined-indicator case, witnessed on RSI) whenever the history is
long enough but the close window is flat, the RSI is NaN and the result
is again an explained HOLD. -/
theorem C8_short_history_holds (st : Strategy) (data : List Bar) (sym : String)
    (pos : Option Int) (hne : data ≠ []) :
    (data.length < st.minLength →
      ∃ ts, st.generateSignal data sym pos = Except.ok ts ∧
            ts.signal = Signal.HOLD ∧ ts.reason ≠ "") ∧
    (∀ r : RSIStrategy, st = Strategy.rsi r → r.period + 1 ≤ data.length →
      (∀ b1 ∈ data, ∀ b2 ∈ data, Bar.close b1 = Bar.close b2) →
      ∃ ts, st.generateSignal data sym pos = Except.ok ts ∧
            ts.signal = Signal.HOLD ∧ ts.reason = "RSI calculation returned NaN") := by
  have hl : data.getLast? = some (data.getLast hne) :=
    List.getLast?_eq_getLast_of_ne_nil hne
  constructor
  · intro hlen
    cases st with
    | rsi s =>
        simp only [Strategy.minLength] at hlen
        exact ⟨_, by
          simp only [Strategy.generateSignal, RSIStrategy.generateSignal, hl]
          rw [if_pos hlen], rfl, by simp⟩
    | ma s =>
        simp only [Strategy.minLength] at hlen
        exact ⟨_, by
          simp only [Strategy.generateSignal, MACrossoverStrategy.generateSignal, hl]
          rw [if_pos hlen], rfl, by simp⟩
    | ema s =>
        simp only [Strategy.minLength] at hlen
        exact ⟨_, by
          simp only [Strategy.generateSignal, EMAStrategy.generateSignal, hl]
          rw [if_pos hlen], rfl, by simp⟩
    | combined s =>
        simp only [Strategy.minLength] at hlen
        exact ⟨_, by
          simp only [Strategy.generateSignal, CombinedStrategy.generateSignal, hl]
          rw [if_pos hlen], rfl, by simp⟩
    | stochastic s =>
        simp only [Strategy.minLength] at hlen
        exact ⟨_, by
          simp only [Strategy.generateSignal, StochasticStrategy.generateSignal, hl]
          rw [if_pos hlen], rfl, by simp⟩
  · intro r hst hlen hflat
    subst hst
    have hlast : data.getLast hne ∈ data := List.getLast_mem hne
    have hcl : ∀ x ∈ data.map Bar.close, x = (data.getLast hne).close := by
      intro x hx
      obtain ⟨b, hb, rfl⟩ := List.mem_map.mp hx
      exact hflat b hb (data.getLast hne) hlast
    have hrsi : rsiLast (data.map Bar.close) r.period = none :=
      rsiLast_flat _ _ _ hcl
    exact ⟨_, by
      simp only [Strategy.generateSignal, RSIStrategy.generateSignal, hl, hrsi]
      rw [if_neg (not_lt.mpr hlen)], rfl, rfl⟩

/-- Witness for `C8_short_history_holds`: both conjuncts applied to the
default RSI strategy — a one-bar history (shorter than the 15-bar
minimum) yields an insufficient-data HOLD, and a 15-bar flat history
yields the NaN HOLD. -/
theorem C8_short_history_holds_witness :
    (∃ ts, Strategy.generateSignal (Strategy.rsi {}) [c8Bar] "S" none = Except.ok ts ∧
           ts.signal = Signal.HOLD ∧ ts.reason ≠ "") ∧
    (∃ ts, Strategy.generateSignal (Strategy.rsi {})
             (List.replicate 15 c8Bar) "S" none = Except.ok ts ∧
           ts.signal = Signal.HOLD ∧ ts.reason = "RSI calculation returned NaN") :=
  ⟨(C8_short_history_holds (Strategy.rsi {}) [c8Bar] "S" none (by simp)).1 (by decide),
   (C8_short_history_holds (Strategy.rsi {}) (List.replicate 15 c8Bar) "S" none
      (by simp)).2 {} rfl (by simp) (by
        intro b1 h1 b2 h2
        rw [List.eq_of_mem_replicate h1, List.eq_of_mem_replicate h2])⟩

end QuantQuest

